import Mathlib

/-!
# Verification of the Image-to-Video front-end

A shallow embedding of the repository's two modules:

* `src/services/geminiService.ts` — `fileToBase64`, `pollOperation`,
  `generateVideoFromImage`.
* `src/App.tsx` — the React controller: session fields, `handleImageChange`,
  `handleGenerateVideo`, `resetState`, and the per-state rendering.

External effects (the remote Gemini service, the file reader, `fetch`) are
modelled as explicit environments passed to the functions; the unbounded
`while` poll loop is modelled with fuel, where a `none` result means the loop
was still running when the fuel ran out (the loop itself has no failure exit).
-/

namespace ImgToVid

/-- The nested optional payload `operation.response?.generatedVideos?.[0]?.video?.uri`
of a `GenerateVideosOperation`. -/
structure VideoRef where
  uri : Option String
  deriving DecidableEq, Repr

structure GeneratedVideo where
  video : Option VideoRef
  deriving DecidableEq, Repr

structure OperationResponse where
  generatedVideos : Option (List GeneratedVideo)
  deriving DecidableEq, Repr

/-- A `GenerateVideosOperation` job handle: a completion flag and, when present,
a response payload. -/
structure Operation where
  done : Bool
  response : Option OperationResponse
  deriving DecidableEq, Repr

/-- The optional chain `completedOperation.response?.generatedVideos?.[0]?.video?.uri`
from `generateVideoFromImage`. -/
def downloadLinkOf (op : Operation) : Option String :=
  op.response.bind fun r =>
    (r.generatedVideos.bind fun vs => vs.head?).bind fun gv =>
      gv.video.bind fun v => v.uri

/-- The fixed list `progressMessages` of `pollOperation` (7 entries). -/
def progressMessages : List String :=
  [ "Warming up the AI generators...",
    "Analyzing image composition...",
    "Dreaming up video frames...",
    "Stitching scenes together...",
    "Applying cinematic effects...",
    "Rendering the final cut...",
    "Almost there, adding final touches..." ]

/-- Outcome of one run of the `while` loop of `pollOperation`, bounded by fuel:
`result = none` means the loop was still polling when the fuel ran out
(the loop has no error exit of its own — a failed attempt is swallowed),
`messages` is the sequence of strings passed to `onProgress` in order, and
`attempts` the number of `ai.operations.getVideosOperation` calls issued. -/
structure PollRun where
  result : Option Operation
  messages : List String
  attempts : Nat
  deriving DecidableEq, Repr

/-- The `while (!currentOperation.done)` loop of `pollOperation`.
`env k` is the outcome of the `k`-th `getVideosOperation` call: `some op'`
when the call returns handle `op'`, `none` when it throws — in which case the
`catch` block logs and keeps `currentOperation` unchanged. Each iteration
first invokes `onProgress` with `progressMessages[messageIndex % 7]` and
increments `messageIndex` (`idx`), then issues the poll attempt. -/
def pollLoop (env : Nat → Option Operation) : Nat → Operation → Nat → PollRun
  | 0, _, _ => ⟨none, [], 0⟩
  | fuel + 1, op, idx =>
    if op.done then ⟨some op, [], 0⟩
    else
      let msg := progressMessages.getD (idx % progressMessages.length) ""
      let next := (env idx).getD op
      let r := pollLoop env fuel next (idx + 1)
      ⟨r.result, msg :: r.messages, r.attempts + 1⟩

/-- The cyclic message sequence starting at index `idx`, `n` entries long. -/
def cycMsgs (idx : Nat) : Nat → List String
  | 0 => []
  | n + 1 =>
    progressMessages.getD (idx % progressMessages.length) "" :: cycMsgs (idx + 1) n

theorem cycMsgs_length (idx n : Nat) : (cycMsgs idx n).length = n := by
  induction n generalizing idx with
  | zero => rfl
  | succ n ih => simp [cycMsgs, ih]

theorem cycMsgs_get? (n : Nat) :
    ∀ idx i, i < n →
      (cycMsgs idx n).get? i =
        some (progressMessages.getD ((idx + i) % progressMessages.length) "") := by
  induction n with
  | zero => intro idx i h; omega
  | succ n ih =>
    intro idx i h
    cases i with
    | zero => simp [cycMsgs]
    | succ i =>
      have hi : i < n := by omega
      have := ih (idx + 1) i hi
      simpa [cycMsgs, Nat.add_assoc, Nat.add_comm 1 i] using this

/-- If the loop's current handle is not done and every poll attempt it can
observe within its fuel either fails (is swallowed) or returns a not-done
handle, the loop runs all `fuel` iterations: it emits the cyclic messages,
issues one attempt per iteration, and produces no result and no error. -/
theorem pollLoop_runs (env : Nat → Option Operation) :
    ∀ (fuel idx : Nat) (op : Operation),
      (0 < fuel → op.done = false) →
      (∀ k o, idx ≤ k → k + 1 < idx + fuel → env k = some o → o.done = false) →
      pollLoop env fuel op idx = ⟨none, cycMsgs idx fuel, fuel⟩ := by
  intro fuel
  induction fuel with
  | zero => intro idx op _ _; rfl
  | succ fuel ih =>
    intro idx op hop henv
    have hdone : op.done = false := hop (Nat.succ_pos fuel)
    have hnext : 0 < fuel → ((env idx).getD op).done = false := by
      intro hf
      cases h : env idx with
      | none => simpa [h] using hdone
      | some o =>
        have := henv idx o (Nat.le_refl idx) (by omega) h
        simpa [h] using this
    have henv' : ∀ k o, idx + 1 ≤ k → k + 1 < (idx + 1) + fuel →
        env k = some o → o.done = false := by
      intro k o hk hlt hko
      exact henv k o (by omega) (by omega) hko
    have := ih (idx + 1) ((env idx).getD op) hnext henv'
    simp [pollLoop, hdone, this, cycMsgs]

/-- A JavaScript value used as a rejection reason: an `Error` object carrying a
`.message` string, a plain string (whose `.message` is `undefined`), or some
other object without a `.message` (e.g. the `ProgressEvent` passed to
`reader.onerror`). -/
inductive JSValue where
  | errorObj (message : String)
  | str (s : String)
  | event
  deriving DecidableEq, Repr

/-- `err.message` as read by the controller: `some` only for an `Error` object. -/
def JSValue.messageOf : JSValue → Option String
  | .errorObj m => some m
  | _ => none

/-- What the `FileReader` inside `fileToBase64` did: fired `onload` with a
string result (the data URL), fired `onload` with a non-string result, or
fired `onerror`. -/
inductive ReadOutcome where
  | loadString (dataUrl : String)
  | loadNonString
  | errorEvt
  deriving DecidableEq, Repr

/-- Split a character sequence at every occurrence of `c` (the JavaScript
`String.prototype.split` with a one-character separator). -/
def splitOnChar (c : Char) : List Char → List (List Char)
  | [] => [[]]
  | x :: xs =>
    match splitOnChar c xs with
    | [] => if x = c then [[], []] else [[x]]
    | y :: ys => if x = c then [] :: y :: ys else (x :: y) :: ys

/-- The JavaScript `s.split(',')`. -/
def jsSplitComma (s : String) : List String :=
  (splitOnChar ',' s.data).map String.mk

/-- `fileToBase64`: resolves with `reader.result.split(',')[1]` on a string
`onload` result; rejects with the plain string
`'FileReader did not return a string.'` on a non-string result; rejects with
the event on `onerror`. -/
def fileToBase64 : ReadOutcome → Except JSValue String
  | .loadString dataUrl => .ok ((jsSplitComma dataUrl).getD 1 "")
  | .loadNonString => .error (.str "FileReader did not return a string.")
  | .errorEvt => .error .event

/-- A downloaded binary payload (`videoResponse.blob()`). -/
structure Blob where
  bytes : List Nat
  deriving DecidableEq, Repr

/-- The argument object passed to `ai.models.generateVideos`. -/
structure GenRequest where
  model : String
  prompt : String
  imageBytes : String
  mimeType : String
  numberOfVideos : Nat
  deriving DecidableEq, Repr

/-- The external world as seen by one run of `generateVideoFromImage`:
the `API_KEY` environment variable, the outcome of the job-creation call,
the outcomes of the successive poll attempts, and the download fetch. -/
structure GenEnv where
  apiKey : Option String
  submit : Except JSValue Operation
  poll : Nat → Option Operation
  fetchOk : Bool
  fetchStatusText : String
  fetchBody : Blob

/-- `!process.env.API_KEY`: true when the variable is absent or empty. -/
def apiKeyFalsy : Option String → Bool
  | none => true
  | some s => s == ""

/-- Outcome of one run of `generateVideoFromImage` (fuel-bounded):
`result = none` means the poll loop was still running when the fuel ran out;
otherwise the promise resolved with a blob or rejected with a `JSValue`.
`messages` are the strings passed to `onProgress` in order, `request` the
job-creation call issued (none if it never happened), `pollAttempts` the
number of status queries, `fetchUrl` the download fetch issued (none if it
never happened). -/
structure GenResult where
  result : Option (Except JSValue Blob)
  messages : List String
  request : Option GenRequest
  pollAttempts : Nat
  fetchUrl : Option String
  deriving Repr

/-- The message of the `Error` thrown when `process.env.API_KEY` is falsy. -/
def apiKeyMissingMsg : String :=
  "API key not found. Please ensure the API_KEY environment variable is set."

/-- The message of the `Error` thrown when the completed operation carries no
download link. -/
def missingResultMsg : String :=
  "Video generation failed or did not return a valid download link."

/-- The message of the `Error` thrown when the download fetch is not ok
(`Failed to download video: ${videoResponse.statusText}`). -/
def downloadFailMsg (statusText : String) : String :=
  "Failed to download video: " ++ statusText

/-- `generateVideoFromImage(base64Image, mimeType, prompt, onProgress)`:
checks the credential, submits the job, reports progress, polls via
`pollOperation`, extracts the download link, and fetches the video. -/
def generateVideoFromImage (genv : GenEnv) (fuel : Nat)
    (base64Image mimeType prompt : String) : GenResult :=
  if apiKeyFalsy genv.apiKey then
    ⟨some (.error (.errorObj apiKeyMissingMsg)), [], none, 0, none⟩
  else
    let req : GenRequest := ⟨"veo-2.0-generate-001", prompt, base64Image, mimeType, 1⟩
    match genv.submit with
    | .error rej =>
      ⟨some (.error rej), ["Initializing video generation..."], some req, 0, none⟩
    | .ok op =>
      let msgs :=
        ["Initializing video generation...",
         "Video generation started. This may take a few minutes."]
      let pr := pollLoop genv.poll fuel op 0
      match pr.result with
      | none => ⟨none, msgs ++ pr.messages, some req, pr.attempts, none⟩
      | some completed =>
        match downloadLinkOf completed with
        | none =>
          ⟨some (.error (.errorObj missingResultMsg)),
           msgs ++ pr.messages, some req, pr.attempts, none⟩
        | some link =>
          let url := link ++ "&key=" ++ genv.apiKey.getD ""
          let msgs2 := msgs ++ pr.messages ++ ["Downloading generated video..."]
          if genv.fetchOk then
            ⟨some (.ok genv.fetchBody), msgs2, some req, pr.attempts, some url⟩
          else
            ⟨some (.error (.errorObj (downloadFailMsg genv.fetchStatusText))),
             msgs2, some req, pr.attempts, some url⟩

/-- The `AppState` enum of `App.tsx`. -/
inductive AppState where
  | IDLE
  | GENERATING
  | SUCCESS
  | ERROR
  deriving DecidableEq, Repr

/-- A selected `File`: its name and MIME type. -/
structure ImgFile where
  name : String
  type : String
  deriving DecidableEq, Repr

/-- `URL.createObjectURL(file)`, modelled deterministically. -/
def objURL (f : ImgFile) : String := "blob:" ++ f.name

/-- `URL.createObjectURL(videoBlob)`, modelled deterministically. -/
def blobURL (_b : Blob) : String := "blob:video"

/-- The controller's `useState` fields: `appState`, `imageFile`,
`imagePreviewUrl`, `prompt`, `generatedVideoUrl`, `error`, `loadingMessage`. -/
structure SessionState where
  appState : AppState
  imageFile : Option ImgFile
  imagePreviewUrl : Option String
  prompt : String
  generatedVideoUrl : Option String
  error : Option String
  loadingMessage : String
  deriving DecidableEq, Repr

/-- The initial values of the seven `useState` hooks. -/
def initialSession : SessionState :=
  ⟨.IDLE, none, none, "", none, none, ""⟩

/-- `resetState`: sets every field back to its initial value. -/
def resetState (_s : SessionState) : SessionState :=
  ⟨.IDLE, none, none, "", none, none, ""⟩

/-- The JavaScript `s.startsWith(p)` test, as a computation on the two
strings' character sequences. -/
def jsStartsWith (s p : String) : Bool := p.data.isPrefixOf s.data

/-- The validation message set by `handleImageChange` on a non-image file. -/
def badFileMsg : String :=
  "Please upload a valid image file (e.g., PNG, JPG, WEBP)."

/-- `handleImageChange`: on a selected file, accepts it and builds a preview
when `file.type.startsWith('image/')`, otherwise sets the validation error
and clears both the stored file and the preview; with no file selected the
handler does nothing. -/
def handleImageChange (s : SessionState) (files : List ImgFile) : SessionState :=
  match files.head? with
  | none => s
  | some file =>
    if jsStartsWith file.type "image/" then
      { s with imageFile := some file
               imagePreviewUrl := some (objURL file)
               error := none }
    else
      { s with error := some badFileMsg
               imageFile := none
               imagePreviewUrl := none }

/-- The validation message of `handleGenerateVideo`. -/
def validationMsg : String := "Please upload an image and provide a prompt."

/-- The first `setLoadingMessage` of `handleGenerateVideo`. -/
def prepMsg : String := "Preparing your image..."

/-- The fallback of `err.message || '...'` in the catch block. -/
def fallbackMsg : String := "An unknown error occurred during video generation."

/-- `setError(err.message || fallback)`: the `Error` message when it is a
non-empty string, the fallback for an empty message or for any rejection
value without a `.message` (a plain string, an event). -/
def displayedError (rej : JSValue) : String :=
  match rej.messageOf with
  | some m => if m == "" then fallbackMsg else m
  | none => fallbackMsg

/-- One run of `handleGenerateVideo` observed from outside: the state after
it returns (`final`), the state right after the initial
`setAppState(GENERATING); setError(null); setLoadingMessage(prep)` block
(`during`, `none` when the validation guard returned early), the successive
`loadingMessage` values shown while it ran (`shown`), whether `fileToBase64`
was invoked, and the service run when `generateVideoFromImage` was invoked. -/
structure AppRun where
  final : SessionState
  during : Option SessionState
  shown : List String
  encodeCalled : Bool
  svc : Option GenResult

/-- `handleGenerateVideo`: guard on `!imageFile || !prompt`, then enter
GENERATING, encode, call `generateVideoFromImage` with `setLoadingMessage`
as `onProgress`, and either store the object URL and enter SUCCESS or catch
the rejection, display its message and enter ERROR. A `svc.result = none`
(fuel ran out while polling) leaves the session in GENERATING showing the
latest progress message. -/
def handleGenerateVideo (enc : ReadOutcome) (genv : GenEnv) (fuel : Nat)
    (s : SessionState) : AppRun :=
  match s.imageFile with
  | none => ⟨{ s with error := some validationMsg }, none, [], false, none⟩
  | some f =>
    if s.prompt == "" then
      ⟨{ s with error := some validationMsg }, none, [], false, none⟩
    else
      let s1 := { s with appState := .GENERATING, error := none,
                         loadingMessage := prepMsg }
      match fileToBase64 enc with
      | .error rej =>
        ⟨{ s1 with error := some (displayedError rej), appState := .ERROR },
         some s1, [prepMsg], true, none⟩
      | .ok base64Image =>
        let g := generateVideoFromImage genv fuel base64Image f.type s.prompt
        let shown := prepMsg :: g.messages
        let s2 := { s1 with loadingMessage := shown.getLastD s.loadingMessage }
        match g.result with
        | some (.ok blob) =>
          ⟨{ s2 with generatedVideoUrl := some (blobURL blob),
                     appState := .SUCCESS },
           some s1, shown, true, some g⟩
        | some (.error rej) =>
          ⟨{ s2 with error := some (displayedError rej), appState := .ERROR },
           some s1, shown, true, some g⟩
        | none => ⟨s2, some s1, shown, true, some g⟩

/-- What `renderContent` puts on screen for the current state: whether the
Generate Video button exists and whether it is disabled
(`disabled={!imageFile || !prompt}`), whether a reset button exists, and the
error and loading texts shown. Only the IDLE (default) branch renders the
Generate Video button. -/
structure View where
  hasGenerateButton : Bool
  generateDisabled : Bool
  hasResetButton : Bool
  shownError : Option String
  shownLoading : Option String
  deriving DecidableEq, Repr

/-- The `switch (appState)` of `renderContent`. -/
def renderContent (s : SessionState) : View :=
  match s.appState with
  | .GENERATING => ⟨false, false, false, none, some s.loadingMessage⟩
  | .SUCCESS => ⟨false, false, true, none, none⟩
  | .ERROR => ⟨false, false, true, s.error, none⟩
  | .IDLE =>
    ⟨true, s.imageFile.isNone || s.prompt == "", false, s.error, none⟩

/-- The submit action is reachable only when the rendered view has an
enabled Generate Video button. -/
def canSubmit (s : SessionState) : Bool :=
  (renderContent s).hasGenerateButton && !(renderContent s).generateDisabled

/-- A user click on the submit control: runs `handleGenerateVideo` when the
rendered view offers an enabled Generate Video button, and is a no-op
(no state change, no encode, no service call) otherwise. -/
def submitEvent (enc : ReadOutcome) (genv : GenEnv) (fuel : Nat)
    (s : SessionState) : AppRun :=
  if canSubmit s then handleGenerateVideo enc genv fuel s
  else ⟨s, none, [], false, none⟩

/-- An `Error` with a non-empty message is displayed as that message. -/
theorem displayedError_errorObj (m : String) (hm : (m == "") = false) :
    displayedError (.errorObj m) = m := by
  simp [displayedError, JSValue.messageOf, hm]

/-- C1: for every run of GenerateVideo in which the job never reports
completion, the poll loop invokes `onProgress` exactly once before each poll
attempt (as many messages as attempts, all within the fuel bound), and the
message passed at poll index `i` equals the fixed 7-entry progress-message
list at position `i % 7`, so iterations beyond the 7th reuse the messages in
the same order. -/
theorem c1_poll_messages_cycle (env : Nat → Option Operation) (op : Operation)
    (fuel : Nat) (hop : op.done = false)
    (hnv : ∀ k o, env k = some o → o.done = false) :
    (pollLoop env fuel op 0).result = none ∧
    (pollLoop env fuel op 0).attempts = fuel ∧
    (pollLoop env fuel op 0).messages.length = fuel ∧
    progressMessages.length = 7 ∧
    ∀ i, i < fuel →
      (pollLoop env fuel op 0).messages.get? i =
        some (progressMessages.getD (i % 7) "") := by
  have h := pollLoop_runs env fuel 0 op (fun _ => hop)
    (fun k o _ _ hko => hnv k o hko)
  refine ⟨by rw [h], by rw [h], ?_, rfl, ?_⟩
  · rw [h]; exact cycMsgs_length 0 fuel
  · intro i hi
    rw [h]
    have hcy := cycMsgs_get? fuel 0 i hi
    have hlen : progressMessages.length = 7 := rfl
    rw [Nat.zero_add, hlen] at hcy
    exact hcy

/-- A remote that never reports completion. -/
def neverEnv : Nat → Option Operation := fun _ => none

/-- A not-yet-done job handle with no payload. -/
def pendingOp : Operation := ⟨false, none⟩

theorem c1_witness :
    (pollLoop neverEnv 9 pendingOp 0).result = none ∧
    (pollLoop neverEnv 9 pendingOp 0).attempts = 9 ∧
    (pollLoop neverEnv 9 pendingOp 0).messages.length = 9 ∧
    progressMessages.length = 7 ∧
    ∀ i, i < 9 →
      (pollLoop neverEnv 9 pendingOp 0).messages.get? i =
        some (progressMessages.getD (i % 7) "") :=
  c1_poll_messages_cycle neverEnv pendingOp 9 rfl
    (fun k _o hko => by simp [neverEnv] at hko)

/-- C3: a failed poll attempt (the `k`-th `getVideosOperation` call throwing)
is swallowed: the loop neither rejects nor terminates — the `PollRun` type
has no error outcome at all, and the result stays `none` (still polling) —
and the next poll attempt still occurs (`attempts = i + 2` within fuel
`i + 2`, so attempt `i + 1` follows the failed attempt `i`), with
`onProgress` still invoked each iteration. -/
theorem c3_poll_failure_swallowed (env : Nat → Option Operation)
    (op : Operation) (i : Nat) (hop : op.done = false)
    (hpre : ∀ k o, k < i → env k = some o → o.done = false)
    (hfail : env i = none) :
    (pollLoop env (i + 2) op 0).result = none ∧
    (pollLoop env (i + 2) op 0).attempts = i + 2 ∧
    (pollLoop env (i + 2) op 0).messages.length = i + 2 := by
  have henv : ∀ k o, 0 ≤ k → k + 1 < 0 + (i + 2) → env k = some o →
      o.done = false := by
    intro k o _ hlt hko
    rcases Nat.lt_or_ge k i with hk | hk
    · exact hpre k o hk hko
    · have hki : k = i := by omega
      rw [hki, hfail] at hko
      cases hko
  have h := pollLoop_runs env (i + 2) 0 op (fun _ => hop) henv
  exact ⟨by rw [h], by rw [h], by rw [h]; exact cycMsgs_length 0 (i + 2)⟩

/-- A remote whose first poll attempt throws and whose later attempts return
a still-running handle. -/
def failOnceEnv : Nat → Option Operation :=
  fun k => if k = 0 then none else some pendingOp

theorem c3_witness :
    (pollLoop failOnceEnv 2 pendingOp 0).result = none ∧
    (pollLoop failOnceEnv 2 pendingOp 0).attempts = 2 ∧
    (pollLoop failOnceEnv 2 pendingOp 0).messages.length = 2 :=
  c3_poll_failure_swallowed failOnceEnv pendingOp 0 rfl
    (fun k _o hk _ => absurd hk (Nat.not_lt_zero k)) rfl

/-- C2: while the Session State is GENERATING, the rendered view carries no
Generate Video button at all (only the IDLE branch of `renderContent` renders
it), so the submit action cannot be triggered and a submit event is a no-op:
no state change, no encode, no GenerateVideo invocation. -/
theorem c2_submit_gated (enc : ReadOutcome) (genv : GenEnv) (fuel : Nat)
    (s : SessionState) (h : s.appState = AppState.GENERATING) :
    (renderContent s).hasGenerateButton = false ∧
    canSubmit s = false ∧
    submitEvent enc genv fuel s = ⟨s, none, [], false, none⟩ := by
  have hr : renderContent s = ⟨false, false, false, none, some s.loadingMessage⟩ := by
    simp [renderContent, h]
  have hc : canSubmit s = false := by simp [canSubmit, hr]
  exact ⟨by rw [hr], hc, by simp [submitEvent, hc]⟩

/-- A session currently generating. -/
def generatingSession : SessionState :=
  ⟨.GENERATING, none, none, "", none, none, "Preparing your image..."⟩

/-- A sample external world: credential present, job created, never done,
download would succeed. -/
def sampleEnv : GenEnv :=
  ⟨some "secret", .ok pendingOp, fun _ => none, true, "OK", ⟨[1, 2, 3]⟩⟩

theorem c2_witness :
    (renderContent generatingSession).hasGenerateButton = false ∧
    canSubmit generatingSession = false ∧
    submitEvent ReadOutcome.loadNonString sampleEnv 3 generatingSession =
      ⟨generatingSession, none, [], false, none⟩ :=
  c2_submit_gated ReadOutcome.loadNonString sampleEnv 3 generatingSession rfl

/-- C8: triggering submit without a selected image, without a non-empty
prompt, or with both missing sets the validation error message and changes
nothing else: the state stays as it was (IDLE), and neither the encode nor
the generation call is issued. -/
theorem c8_validation_no_transition (enc : ReadOutcome) (genv : GenEnv)
    (fuel : Nat) (s : SessionState)
    (h : s.imageFile = none ∨ s.prompt = "")
    (hidle : s.appState = AppState.IDLE) :
    (handleGenerateVideo enc genv fuel s).final =
      { s with error := some validationMsg } ∧
    (handleGenerateVideo enc genv fuel s).final.appState = AppState.IDLE ∧
    (handleGenerateVideo enc genv fuel s).encodeCalled = false ∧
    (handleGenerateVideo enc genv fuel s).svc = none := by
  have hrun : handleGenerateVideo enc genv fuel s =
      ⟨{ s with error := some validationMsg }, none, [], false, none⟩ := by
    rcases h with h | h
    · simp [handleGenerateVideo, h]
    · cases himg : s.imageFile with
      | none => simp [handleGenerateVideo, himg]
      | some f => simp [handleGenerateVideo, himg, h]
  rw [hrun]
  exact ⟨rfl, hidle, rfl, rfl⟩

theorem c8_witness :
    (handleGenerateVideo ReadOutcome.loadNonString sampleEnv 3 initialSession).final =
      { initialSession with error := some validationMsg } ∧
    (handleGenerateVideo ReadOutcome.loadNonString sampleEnv 3 initialSession).final.appState
      = AppState.IDLE ∧
    (handleGenerateVideo ReadOutcome.loadNonString sampleEnv 3 initialSession).encodeCalled
      = false ∧
    (handleGenerateVideo ReadOutcome.loadNonString sampleEnv 3 initialSession).svc
      = none :=
  c8_validation_no_transition ReadOutcome.loadNonString sampleEnv 3
    initialSession (Or.inl rfl) rfl

/-- C9: a file-selection event carrying a file whose MIME type does not start
with `image/` sets the validation message, leaves the main state IDLE, clears
the stored image file and the preview, and never populates the preview from
that file. -/
theorem c9_non_image_file (s : SessionState) (file : ImgFile)
    (h : jsStartsWith file.type "image/" = false)
    (hidle : s.appState = AppState.IDLE) :
    (handleImageChange s [file]).error = some badFileMsg ∧
    (handleImageChange s [file]).appState = AppState.IDLE ∧
    (handleImageChange s [file]).imageFile = none ∧
    (handleImageChange s [file]).imagePreviewUrl = none := by
  have hrun : handleImageChange s [file] =
      { s with error := some badFileMsg, imageFile := none,
               imagePreviewUrl := none } := by
    simp [handleImageChange, h]
  rw [hrun]
  exact ⟨rfl, hidle, rfl, rfl⟩

/-- A selected PNG image. -/
def pngFile : ImgFile := ⟨"cat.png", "image/png"⟩

/-- A selected non-image file. -/
def pdfFile : ImgFile := ⟨"doc.pdf", "application/pdf"⟩

/-- An IDLE session that already holds a selected image and preview. -/
def idleWithImage : SessionState :=
  ⟨.IDLE, some pngFile, some (objURL pngFile), "", none, none, ""⟩

theorem c9_witness :
    (handleImageChange idleWithImage [pdfFile]).error = some badFileMsg ∧
    (handleImageChange idleWithImage [pdfFile]).appState = AppState.IDLE ∧
    (handleImageChange idleWithImage [pdfFile]).imageFile = none ∧
    (handleImageChange idleWithImage [pdfFile]).imagePreviewUrl = none :=
  c9_non_image_file idleWithImage pdfFile (by decide) rfl

/-- C4: when the poll loop completes with a job whose response payload
carries no generated-video reference, `generateVideoFromImage` rejects with
the missing-result error and issues no download fetch; conversely a download
fetch is only ever issued when the completed job's reference is present. -/
theorem c4_missing_result_no_fetch (genv : GenEnv) (fuel : Nat)
    (b m p : String) :
    (∀ op0 completed, apiKeyFalsy genv.apiKey = false →
      genv.submit = Except.ok op0 →
      (pollLoop genv.poll fuel op0 0).result = some completed →
      downloadLinkOf completed = none →
      (generateVideoFromImage genv fuel b m p).result =
        some (Except.error (JSValue.errorObj missingResultMsg)) ∧
      (generateVideoFromImage genv fuel b m p).fetchUrl = none) ∧
    ((generateVideoFromImage genv fuel b m p).fetchUrl ≠ none →
      ∃ op0 completed link, genv.submit = Except.ok op0 ∧
        (pollLoop genv.poll fuel op0 0).result = some completed ∧
        downloadLinkOf completed = some link) := by
  constructor
  · intro op0 completed hkey hsub hpoll hlink
    constructor <;> simp [generateVideoFromImage, hkey, hsub, hpoll, hlink]
  · intro hfetch
    cases hkey : apiKeyFalsy genv.apiKey with
    | true => simp [generateVideoFromImage, hkey] at hfetch
    | false =>
      cases hsub : genv.submit with
      | error rej => simp [generateVideoFromImage, hkey, hsub] at hfetch
      | ok op0 =>
        cases hpoll : (pollLoop genv.poll fuel op0 0).result with
        | none => simp [generateVideoFromImage, hkey, hsub, hpoll] at hfetch
        | some completed =>
          cases hlink : downloadLinkOf completed with
          | none =>
            simp [generateVideoFromImage, hkey, hsub, hpoll, hlink] at hfetch
          | some link => exact ⟨op0, completed, link, rfl, hpoll, hlink⟩

/-- A completed job whose response payload carries no video reference. -/
def doneNoLinkOp : Operation := ⟨true, none⟩

/-- An external world whose job completes on the first poll but returns no
download link. -/
def noLinkEnv : GenEnv :=
  ⟨some "secret", .ok pendingOp, fun _ => some doneNoLinkOp, true, "OK", ⟨[]⟩⟩

theorem c4_witness :
    (generateVideoFromImage noLinkEnv 2 "QQ==" "image/png" "a cat walking").result =
      some (Except.error (JSValue.errorObj missingResultMsg)) ∧
    (generateVideoFromImage noLinkEnv 2 "QQ==" "image/png" "a cat walking").fetchUrl =
      none :=
  (c4_missing_result_no_fetch noLinkEnv 2 "QQ==" "image/png" "a cat walking").1
    pendingOp doneNoLinkOp rfl rfl rfl rfl

/-- C5: with the API credential absent, `generateVideoFromImage` rejects
immediately with the missing-credential error before any network activity —
no job-creation request, no poll attempt, no download fetch, not even a
progress callback — and the controller moves the session to the ERROR state
showing that message. -/
theorem c5_missing_credential (enc : ReadOutcome) (genv : GenEnv) (fuel : Nat)
    (s : SessionState) (f : ImgFile) (b : String)
    (hkey : genv.apiKey = none)
    (himg : s.imageFile = some f) (hp : s.prompt ≠ "")
    (henc : fileToBase64 enc = Except.ok b) :
    (generateVideoFromImage genv fuel b f.type s.prompt).result =
      some (Except.error (JSValue.errorObj apiKeyMissingMsg)) ∧
    (generateVideoFromImage genv fuel b f.type s.prompt).request = none ∧
    (generateVideoFromImage genv fuel b f.type s.prompt).pollAttempts = 0 ∧
    (generateVideoFromImage genv fuel b f.type s.prompt).fetchUrl = none ∧
    (generateVideoFromImage genv fuel b f.type s.prompt).messages = [] ∧
    (handleGenerateVideo enc genv fuel s).final.appState = AppState.ERROR ∧
    (handleGenerateVideo enc genv fuel s).final.error = some apiKeyMissingMsg := by
  have hfalsy : apiKeyFalsy genv.apiKey = true := by simp [hkey, apiKeyFalsy]
  have hg : generateVideoFromImage genv fuel b f.type s.prompt =
      ⟨some (.error (.errorObj apiKeyMissingMsg)), [], none, 0, none⟩ := by
    simp [generateVideoFromImage, hfalsy]
  have hp2 : (s.prompt == "") = false := beq_eq_false_iff_ne.mpr hp
  have hdisp : displayedError (.errorObj apiKeyMissingMsg) = apiKeyMissingMsg :=
    displayedError_errorObj apiKeyMissingMsg (by decide)
  refine ⟨by rw [hg], by rw [hg], by rw [hg], by rw [hg], by rw [hg], ?_, ?_⟩ <;>
    simp [handleGenerateVideo, himg, hp2, henc, hg, hdisp]

/-- An external world with no credential. -/
def noKeyEnv : GenEnv :=
  ⟨none, .ok pendingOp, fun _ => none, true, "OK", ⟨[]⟩⟩

/-- An IDLE session holding a valid image and a non-empty prompt. -/
def idleReady : SessionState :=
  ⟨.IDLE, some pngFile, some (objURL pngFile), "a cat walking", none, none, ""⟩

/-- A file read that fires `onload` with a PNG data URL. -/
def pngRead : ReadOutcome := .loadString "data:image/png;base64,QUJD"

theorem c5_witness :
    (generateVideoFromImage noKeyEnv 3 "QUJD" pngFile.type idleReady.prompt).result =
      some (Except.error (JSValue.errorObj apiKeyMissingMsg)) ∧
    (generateVideoFromImage noKeyEnv 3 "QUJD" pngFile.type idleReady.prompt).request = none ∧
    (generateVideoFromImage noKeyEnv 3 "QUJD" pngFile.type idleReady.prompt).pollAttempts = 0 ∧
    (generateVideoFromImage noKeyEnv 3 "QUJD" pngFile.type idleReady.prompt).fetchUrl = none ∧
    (generateVideoFromImage noKeyEnv 3 "QUJD" pngFile.type idleReady.prompt).messages = [] ∧
    (handleGenerateVideo pngRead noKeyEnv 3 idleReady).final.appState = AppState.ERROR ∧
    (handleGenerateVideo pngRead noKeyEnv 3 idleReady).final.error = some apiKeyMissingMsg :=
  c5_missing_credential pngRead noKeyEnv 3 idleReady pngFile "QUJD" rfl rfl
    (by decide) rfl

/-- A completed job whose response carries a video reference. -/
def linkedOp : Operation :=
  ⟨true, some ⟨some [⟨some ⟨some "https://video.example/v1"⟩⟩]⟩⟩

/-- An external world for the end-to-end success scenario: credential
present, job created, completes on the first poll with a reference, and the
download succeeds. -/
def successEnv : GenEnv :=
  ⟨some "secret", .ok pendingOp, fun _ => some linkedOp, true, "OK", ⟨[9, 9]⟩⟩

/-- The end-to-end success run: valid PNG, prompt `a cat walking`. -/
def successRun : AppRun := handleGenerateVideo pngRead successEnv 5 idleReady

/-- C6 counterexample: in the end-to-end success scenario the run does end
in SUCCESS with a playable asset, and the job does complete on the first
poll, but the FIRST progress message shown is `Preparing your image...`
(set by the controller before encoding), not
`Warming up the AI generators...`, which is only the fourth message shown. -/
theorem c6_counterexample :
    successRun.final.appState = AppState.SUCCESS ∧
    successRun.final.generatedVideoUrl = some (blobURL successEnv.fetchBody) ∧
    successRun.svc.map GenResult.pollAttempts = some 1 ∧
    successRun.shown.head? = some prepMsg ∧
    prepMsg ≠ "Warming up the AI generators..." :=
  ⟨rfl, rfl, rfl, rfl, by decide⟩

/-- C6 (amended): in the end-to-end success scenario the session enters
GENERATING right after submit showing `Preparing your image...` — the first
progress message shown; `Warming up the AI generators...` is the fourth
message, the first one from the poll loop — and the run ends in SUCCESS with
a playable object URL for the downloaded blob. -/
theorem c6_success_scenario (enc : ReadOutcome) (genv : GenEnv) (fuel : Nat)
    (s : SessionState) (f : ImgFile) (b : String) (op0 completed : Operation)
    (link : String)
    (himg : s.imageFile = some f) (hp : s.prompt ≠ "")
    (henc : fileToBase64 enc = Except.ok b)
    (hkey : apiKeyFalsy genv.apiKey = false)
    (hsub : genv.submit = Except.ok op0) (hop0 : op0.done = false)
    (hpoll : genv.poll 0 = some completed) (hdone : completed.done = true)
    (hlink : downloadLinkOf completed = some link)
    (hfetch : genv.fetchOk = true) :
    (handleGenerateVideo enc genv (fuel + 2) s).during.map SessionState.appState
      = some AppState.GENERATING ∧
    (handleGenerateVideo enc genv (fuel + 2) s).during.map SessionState.loadingMessage
      = some prepMsg ∧
    (handleGenerateVideo enc genv (fuel + 2) s).shown =
      [prepMsg, "Initializing video generation...",
       "Video generation started. This may take a few minutes.",
       "Warming up the AI generators...",
       "Downloading generated video..."] ∧
    (handleGenerateVideo enc genv (fuel + 2) s).shown.head? = some prepMsg ∧
    (handleGenerateVideo enc genv (fuel + 2) s).final.appState = AppState.SUCCESS ∧
    (handleGenerateVideo enc genv (fuel + 2) s).final.generatedVideoUrl
      = some (blobURL genv.fetchBody) := by
  have hp2 : (s.prompt == "") = false := beq_eq_false_iff_ne.mpr hp
  have hpl : pollLoop genv.poll (fuel + 2) op0 0 =
      ⟨some completed, ["Warming up the AI generators..."], 1⟩ := by
    simp [pollLoop, hop0, hpoll, hdone, progressMessages]
  refine ⟨?_, ?_, ?_, ?_, ?_, ?_⟩ <;>
    simp [handleGenerateVideo, himg, hp2, henc, generateVideoFromImage,
      hkey, hsub, hpl, hlink, hfetch]

theorem c6_witness :
    (handleGenerateVideo pngRead successEnv (3 + 2) idleReady).during.map
        SessionState.appState = some AppState.GENERATING ∧
    (handleGenerateVideo pngRead successEnv (3 + 2) idleReady).during.map
        SessionState.loadingMessage = some prepMsg ∧
    (handleGenerateVideo pngRead successEnv (3 + 2) idleReady).shown =
      [prepMsg, "Initializing video generation...",
       "Video generation started. This may take a few minutes.",
       "Warming up the AI generators...",
       "Downloading generated video..."] ∧
    (handleGenerateVideo pngRead successEnv (3 + 2) idleReady).shown.head?
      = some prepMsg ∧
    (handleGenerateVideo pngRead successEnv (3 + 2) idleReady).final.appState
      = AppState.SUCCESS ∧
    (handleGenerateVideo pngRead successEnv (3 + 2) idleReady).final.generatedVideoUrl
      = some (blobURL successEnv.fetchBody) :=
  c6_success_scenario pngRead successEnv 3 idleReady pngFile "QUJD" pendingOp
    linkedOp "https://video.example/v1" rfl (by decide) rfl rfl rfl rfl rfl
    rfl rfl rfl

/-- The run in which the file read yields a non-string result, so the encode
step rejects with the plain string `FileReader did not return a string.`. -/
def encodeFailRun : AppRun :=
  handleGenerateVideo ReadOutcome.loadNonString successEnv 5 idleReady

/-- C7 counterexample: the encode step rejects with the descriptive plain
string `FileReader did not return a string.`, but a plain string has no
`.message`, so `err.message || fallback` makes the controller display the
generic fallback text instead of that message verbatim. -/
theorem c7_counterexample :
    fileToBase64 ReadOutcome.loadNonString =
      Except.error (JSValue.str "FileReader did not return a string.") ∧
    encodeFailRun.final.appState = AppState.ERROR ∧
    encodeFailRun.final.error = some fallbackMsg ∧
    fallbackMsg ≠ "FileReader did not return a string." :=
  ⟨rfl, rfl, rfl, by decide⟩

/-- C7 (amended): every failure inside the generation flow (encode step
included) reaches the controller as a single rejection and ends in the ERROR
state showing one message derived from the rejection alone
(`err.message || fallback`): the rejection's message verbatim when it is an
`Error` with a non-empty message, and the generic fallback text otherwise
(in particular for the encode step's plain-string rejection). -/
theorem c7_propagation (enc : ReadOutcome) (genv : GenEnv) (fuel : Nat)
    (s : SessionState) (f : ImgFile) (rej : JSValue)
    (himg : s.imageFile = some f) (hp : s.prompt ≠ "")
    (hrej : fileToBase64 enc = Except.error rej ∨
      ∃ b, fileToBase64 enc = Except.ok b ∧
        (generateVideoFromImage genv fuel b f.type s.prompt).result =
          some (Except.error rej)) :
    (handleGenerateVideo enc genv fuel s).final.appState = AppState.ERROR ∧
    (handleGenerateVideo enc genv fuel s).final.error =
      some (displayedError rej) ∧
    ∀ m, rej = JSValue.errorObj m → (m == "") = false →
      displayedError rej = m := by
  have hp2 : (s.prompt == "") = false := beq_eq_false_iff_ne.mpr hp
  have hthird : ∀ m, rej = JSValue.errorObj m → (m == "") = false →
      displayedError rej = m := by
    intro m hm hne
    subst hm
    exact displayedError_errorObj m hne
  rcases hrej with hrej | ⟨b, henc, hres⟩
  · refine ⟨?_, ?_, hthird⟩ <;> simp [handleGenerateVideo, himg, hp2, hrej]
  · refine ⟨?_, ?_, hthird⟩ <;>
      simp [handleGenerateVideo, himg, hp2, henc, hres]

theorem c7_witness :
    (handleGenerateVideo ReadOutcome.loadNonString successEnv 5 idleReady).final.appState
      = AppState.ERROR ∧
    (handleGenerateVideo ReadOutcome.loadNonString successEnv 5 idleReady).final.error
      = some (displayedError (JSValue.str "FileReader did not return a string.")) ∧
    (∀ m, JSValue.str "FileReader did not return a string." = JSValue.errorObj m →
      (m == "") = false →
      displayedError (JSValue.str "FileReader did not return a string.") = m) :=
  c7_propagation ReadOutcome.loadNonString successEnv 5 idleReady pngFile
    (JSValue.str "FileReader did not return a string.") rfl (by decide)
    (Or.inl rfl)

/-- C10: a submit that ends in failure changes only the state (to ERROR) and
the error message: the selected image, the preview, the prompt and the
generated-video reference keep the values they had when the failure occurred,
the progress message stays at the last value shown during the run, and only
an explicit reset (which restores every field to its initial value) clears
it. -/
theorem c10_failure_frame (enc : ReadOutcome) (genv : GenEnv) (fuel : Nat)
    (s : SessionState) (f : ImgFile) (rej : JSValue)
    (himg : s.imageFile = some f) (hp : s.prompt ≠ "")
    (hrej : fileToBase64 enc = Except.error rej ∨
      ∃ b, fileToBase64 enc = Except.ok b ∧
        (generateVideoFromImage genv fuel b f.type s.prompt).result =
          some (Except.error rej)) :
    (handleGenerateVideo enc genv fuel s).final.appState = AppState.ERROR ∧
    (handleGenerateVideo enc genv fuel s).final.error =
      some (displayedError rej) ∧
    (handleGenerateVideo enc genv fuel s).final.imageFile = s.imageFile ∧
    (handleGenerateVideo enc genv fuel s).final.imagePreviewUrl =
      s.imagePreviewUrl ∧
    (handleGenerateVideo enc genv fuel s).final.prompt = s.prompt ∧
    (handleGenerateVideo enc genv fuel s).final.generatedVideoUrl =
      s.generatedVideoUrl ∧
    (handleGenerateVideo enc genv fuel s).final.loadingMessage =
      (handleGenerateVideo enc genv fuel s).shown.getLastD s.loadingMessage ∧
    (handleGenerateVideo enc genv fuel s).shown ≠ [] ∧
    resetState (handleGenerateVideo enc genv fuel s).final = initialSession := by
  have hp2 : (s.prompt == "") = false := beq_eq_false_iff_ne.mpr hp
  rcases hrej with hrej | ⟨b, henc, hres⟩
  · refine ⟨?_, ?_, ?_, ?_, ?_, ?_, ?_, ?_, ?_⟩ <;>
      simp [handleGenerateVideo, himg, hp2, hrej, resetState, initialSession]
  · refine ⟨?_, ?_, ?_, ?_, ?_, ?_, ?_, ?_, ?_⟩ <;>
      simp [handleGenerateVideo, himg, hp2, henc, hres, resetState,
        initialSession]

/-- The run in which the job completes without a video reference, so the
service rejects with the missing-result error after the poll loop. -/
def noLinkRun : AppRun := handleGenerateVideo pngRead noLinkEnv 2 idleReady

theorem c10_witness :
    noLinkRun.final.appState = AppState.ERROR ∧
    noLinkRun.final.error =
      some (displayedError (JSValue.errorObj missingResultMsg)) ∧
    noLinkRun.final.imageFile = idleReady.imageFile ∧
    noLinkRun.final.imagePreviewUrl = idleReady.imagePreviewUrl ∧
    noLinkRun.final.prompt = idleReady.prompt ∧
    noLinkRun.final.generatedVideoUrl = idleReady.generatedVideoUrl ∧
    noLinkRun.final.loadingMessage =
      noLinkRun.shown.getLastD idleReady.loadingMessage ∧
    noLinkRun.shown ≠ [] ∧
    resetState noLinkRun.final = initialSession :=
  c10_failure_frame pngRead noLinkEnv 2 idleReady pngFile
    (JSValue.errorObj missingResultMsg) rfl (by decide)
    (Or.inr ⟨"QUJD", rfl, rfl⟩)

end ImgToVid
